import Mathlib

/-!
Shallow embedding of the Task Intelligence & Autonomous Remediation Engine
(`services/ai_task_engine.py` and `services/autonomous_agent.py`) of the
GOFAP project board, together with proofs of its specified properties.

Python strings are modelled as lists of characters (`Str`), Python floats
arising from the engine's arithmetic as exact rationals, dictionaries with a
fixed key set as structures, and the SQLAlchemy-backed persistence layer as an
explicit `Store` value threaded through the functions that query it.
-/

/-- Python strings, modelled as lists of characters. -/
abbrev Str := List Char

/-- Coerce a Lean string literal into the character-list model. -/
def str (s : String) : Str := s.data

/-- Python `str.lower()` (ASCII fragment, which covers every keyword used by
the engine). -/
def lowerStr (s : Str) : Str := s.map Char.toLower

/-- Python `needle in haystack` substring containment on strings. -/
def containsSub (needle : Str) : Str → Bool
  | [] => needle.isEmpty
  | c :: rest => needle.isPrefixOf (c :: rest) || containsSub needle rest

/-- Helper for `countWords`: the flag records whether the previous character
was part of a word. -/
def countWordsAux : Bool → Str → Nat
  | _, [] => 0
  | inWord, c :: rest =>
    if c.isWhitespace then countWordsAux false rest
    else (if inWord then 0 else 1) + countWordsAux true rest

/-- Python `len(s.split())`: the number of maximal whitespace-free runs. -/
def countWords (s : Str) : Nat := countWordsAux false s

/-- Round-half-to-even of a rational to an integer: the idealised behaviour
of Python `round` (the engine's floats are modelled as exact rationals). -/
def halfEven (x : ℚ) : ℤ :=
  let f := ⌊x⌋
  let r := x - f
  if r < 1/2 then f
  else if 1/2 < r then f + 1
  else if f % 2 = 0 then f else f + 1

/-- Python `round(x, d)` on the engine's numeric values. -/
def roundTo (d : ℕ) (x : ℚ) : ℚ := (halfEven (x * 10 ^ d) : ℚ) / 10 ^ d

/-- `models.UserRole`. -/
inductive UserRole where
  | admin | treasurer | accountant | hr_manager | department_head | employee | citizen
  deriving DecidableEq

/-- `models.TaskStatus`. -/
inductive TaskStatus where
  | todo | in_progress | review | completed | blocked
  deriving DecidableEq

/-- `models.TaskPriority`. -/
inductive TaskPriority where
  | low | medium | high | urgent
  deriving DecidableEq

/-- Rank of a priority in the order Low < Medium < High < Urgent. -/
def prioRank : TaskPriority → Nat
  | .low => 0
  | .medium => 1
  | .high => 2
  | .urgent => 3

/-! ### AITaskEngine.decompose_task -/

/-- One entry of the list returned by `AITaskEngine.decompose_task` (the
Python dict `{title, description, priority, estimated_hours}`; the priority is
stored as `TaskPriority.X.value`, modelled by the enum itself). -/
structure SubtaskTemplate where
  title : Str
  description : Str
  priority : TaskPriority
  estimated_hours : Nat
  deriving DecidableEq

/-- The "build intent" keyword list of `decompose_task`. -/
def buildKeywords : List Str := [str "implement", str "create", str "build", str "develop"]

/-- The "fix intent" keyword list of `decompose_task`. -/
def fixIntentKeywords : List Str := [str "fix", str "bug", str "issue"]

/-- `AITaskEngine.decompose_task`: pattern-based decomposition of a task into
subtask templates.  The description parameter is accepted but unused, exactly
as in the source. -/
def decompose_task (task_title : Str) (_task_description : Str) : List SubtaskTemplate :=
  if buildKeywords.any (fun w => containsSub w (lowerStr task_title)) then
    [ { title := str "Design and plan: " ++ task_title,
        description := str "Create technical design and implementation plan",
        priority := .high, estimated_hours := 4 },
      { title := str "Implement core functionality: " ++ task_title,
        description := str "Develop the main features and functionality",
        priority := .high, estimated_hours := 16 },
      { title := str "Write tests: " ++ task_title,
        description := str "Create unit and integration tests",
        priority := .medium, estimated_hours := 6 },
      { title := str "Documentation: " ++ task_title,
        description := str "Write documentation and usage examples",
        priority := .low, estimated_hours := 2 } ]
  else if fixIntentKeywords.any (fun w => containsSub w (lowerStr task_title)) then
    [ { title := str "Investigate: " ++ task_title,
        description := str "Identify root cause and impact",
        priority := .high, estimated_hours := 2 },
      { title := str "Fix: " ++ task_title,
        description := str "Implement the fix",
        priority := .high, estimated_hours := 4 },
      { title := str "Test: " ++ task_title,
        description := str "Verify the fix and prevent regression",
        priority := .medium, estimated_hours := 2 } ]
  else []

/-! ### AITaskEngine.analyze_task_complexity -/

/-- `AITaskEngine.COMPLEXITY_HIGH`. -/
def COMPLEXITY_HIGH : List Str :=
  [str "architecture", str "refactor", str "migration", str "integration", str "critical"]

/-- `AITaskEngine.COMPLEXITY_MEDIUM`. -/
def COMPLEXITY_MEDIUM : List Str :=
  [str "feature", str "enhancement", str "improvement", str "update"]

/-- `AITaskEngine.COMPLEXITY_LOW`. -/
def COMPLEXITY_LOW : List Str :=
  [str "fix", str "bug", str "typo", str "documentation", str "comment"]

/-- The lower-cased concatenation `(title + " " + description).lower()` that
the engine scans for keywords. -/
def contentOf (title desc : Str) : Str := lowerStr (title ++ str " " ++ desc)

/-- Does any keyword from the list occur in the content? -/
def hasKw (ks : List Str) (c : Str) : Bool := ks.any (fun k => containsSub k c)

/-- The word-count adjustment of `analyze_task_complexity`: +1 above 100
words, -1 below 20 words. -/
def wordAdj (c : Str) : Int :=
  if countWords c > 100 then 1 else if countWords c < 20 then -1 else 0

/-- Result dictionary of `AITaskEngine.analyze_task_complexity`. -/
structure ComplexityResult where
  complexity_score : Int
  suggested_priority : TaskPriority
  estimated_hours : Nat
  confidence : ℚ
  reasoning : Str
  deriving DecidableEq

/-- The keyword-loop and word-count part of `analyze_task_complexity`: start
at 5, raise to 8 on a high keyword, raise to 5 on a medium keyword, lower to 3
on a low keyword (loops in source order), then adjust by word count. -/
def complexityScoreOf (c : Str) : Int :=
  let s1 := COMPLEXITY_HIGH.foldl (fun s k => if containsSub k c then max s 8 else s) 5
  let s2 := COMPLEXITY_MEDIUM.foldl (fun s k => if containsSub k c then max s 5 else s) s1
  let s3 := COMPLEXITY_LOW.foldl (fun s k => if containsSub k c then min s 3 else s) s2
  if countWords c > 100 then s3 + 1 else if countWords c < 20 then s3 - 1 else s3

/-- The final if-chain of `analyze_task_complexity` mapping the score to a
(priority, estimated hours) pair. -/
def prioEstOf (score : Int) : TaskPriority × Nat :=
  if score ≥ 8 then (.urgent, 40)
  else if score ≥ 6 then (.high, 20)
  else if score ≥ 4 then (.medium, 8)
  else (.low, 4)

/-- `AITaskEngine.analyze_task_complexity`: keyword/word-count based
complexity scoring. -/
def analyze_task_complexity (title desc : Str) : ComplexityResult :=
  let content := contentOf title desc
  let score := complexityScoreOf content
  { complexity_score := score,
    suggested_priority := (prioEstOf score).1,
    estimated_hours := (prioEstOf score).2,
    confidence := 3/4,
    reasoning := str "Analyzed " ++ (Nat.repr (countWords content)).data
      ++ str " words with complexity indicators" }

/-! ### AutonomousAgent: issue classification -/

/-- A GitHub label, as the agent reads it (`l.get("name", "")`). -/
structure Label where
  name : Str
  deriving DecidableEq

/-- A GitHub issue payload as consumed by the agent: `number` is
`issue_data.get("number")` (absent modelled as `none`), title/body are
`issue_data.get("title"/"body", "")`, labels the list of label names. -/
structure IssueData where
  number : Option Nat
  title : Str
  body : Str
  labels : List Label

/-- Detection regex `SyntaxError|IndentationError|TabError` under IGNORECASE,
applied to the already lower-cased content. -/
def detectSyntaxError (c : Str) : Bool :=
  containsSub (str "syntaxerror") c || containsSub (str "indentationerror") c ||
    containsSub (str "taberror") c

/-- Detection regex `ImportError|ModuleNotFoundError`. -/
def detectImportError (c : Str) : Bool :=
  containsSub (str "importerror") c || containsSub (str "modulenotfounderror") c

/-- Detection regex `TypeError|AttributeError`. -/
def detectTypeError (c : Str) : Bool :=
  containsSub (str "typeerror") c || containsSub (str "attributeerror") c

/-- Does `cve-` followed immediately by a decimal digit occur in the text?
Models the branch `CVE-\d+` of the security regex under IGNORECASE against
lower-cased text. -/
def matchCVE : Str → Bool
  | [] => false
  | c :: rest =>
    ((str "cve-").isPrefixOf (c :: rest) &&
      (match (c :: rest).drop 4 with
       | d :: _ => d.isDigit
       | [] => false)) || matchCVE rest

/-- Detection regex `SQL injection|XSS|CSRF|CVE-\d+`. -/
def detectSecurity (c : Str) : Bool :=
  containsSub (str "sql injection") c || containsSub (str "xss") c ||
    containsSub (str "csrf") c || matchCVE c

/-- Detection regex `DeprecationWarning|deprecated`. -/
def detectDeprecation (c : Str) : Bool :=
  containsSub (str "deprecationwarning") c || containsSub (str "deprecated") c

/-- One entry of `AutonomousAgent.FIX_PATTERNS`. -/
structure FixPattern where
  fix_type : Str
  detection : Str → Bool
  severity : Str
  auto_fixable : Bool

/-- `AutonomousAgent.FIX_PATTERNS`, in dictionary (insertion) order. -/
def FIX_PATTERNS : List FixPattern :=
  [ ⟨str "syntax_error", detectSyntaxError, str "high", true⟩,
    ⟨str "import_error", detectImportError, str "high", true⟩,
    ⟨str "type_error", detectTypeError, str "medium", true⟩,
    ⟨str "security_vulnerability", detectSecurity, str "critical", true⟩,
    ⟨str "deprecation", detectDeprecation, str "low", true⟩ ]

/-- `AutonomousAgent.AUTOMATION_TRIGGERS` (label name, action description). -/
def AUTOMATION_TRIGGERS : List (Str × Str) :=
  [ (str "auto-fix", str "Automatically fix the issue if possible"),
    (str "auto-merge", str "Auto-merge PR when checks pass"),
    (str "auto-document", str "Generate documentation automatically"),
    (str "auto-test", str "Generate test cases automatically"),
    (str "quick-fix", str "Apply quick fix and create PR"),
    (str "enhancement", str "Auto-analyze for implementation approach") ]

/-- The automation-strategy dictionary built by
`AutonomousAgent.analyze_issue_for_automation`. -/
structure Strategy where
  issue_id : Option Nat
  title : Str
  automatable : Bool
  auto_fix_type : Option Str
  suggested_actions : List Str
  priority : Str
  estimated_effort : Str

/-- Keyword lists of the content-based "determine actions" checks. -/
def fixishWords : List Str :=
  [str "fix", str "bug", str "error", str "broken", str "not working"]

/-- Feature-language keywords of the action checks. -/
def featureishWords : List Str :=
  [str "feature", str "add", str "implement", str "create"]

/-- Documentation-language keywords of the action checks. -/
def docishWords : List Str := [str "document", str "docs", str "readme", str "guide"]

/-- Test-language keywords of the action checks. -/
def testishWords : List Str := [str "test", str "testing", str "coverage"]

/-- The base strategy dictionary of `analyze_issue_for_automation` after the
first-match scan of `FIX_PATTERNS` over the lower-cased `title body` content
(`break` on the first matching pattern). -/
def strategyAfterPatterns (issue : IssueData) : Strategy :=
  let base : Strategy :=
    { issue_id := issue.number, title := issue.title, automatable := false,
      auto_fix_type := none, suggested_actions := [], priority := str "medium",
      estimated_effort := str "medium" }
  match FIX_PATTERNS.find? (fun p => p.detection (contentOf issue.title issue.body)) with
  | some p =>
    { base with automatable := p.auto_fixable, auto_fix_type := some p.fix_type,
                priority := p.severity }
  | none => base

/-- Body of the label loop: a recognised automation-trigger label forces
`automatable` and appends its action description. -/
def triggerFold (st : Strategy) (lab : Label) : Strategy :=
  match AUTOMATION_TRIGGERS.lookup lab.name with
  | some desc =>
    { st with automatable := true, suggested_actions := st.suggested_actions ++ [desc] }
  | none => st

/-- The four content-based "determine actions" checks, in source order. -/
def addContentActions (content : Str) (st : Strategy) : Strategy :=
  let a1 :=
    if fixishWords.any (fun w => containsSub w content) then
      { st with suggested_actions :=
          st.suggested_actions ++ [str "Generate fix and create PR"] }
    else st
  let a2 :=
    if featureishWords.any (fun w => containsSub w content) then
      { a1 with suggested_actions := a1.suggested_actions ++
          [str "Generate implementation plan", str "Create task breakdown"] }
    else a1
  let a3 :=
    if docishWords.any (fun w => containsSub w content) then
      { a2 with suggested_actions := a2.suggested_actions ++
          [str "Auto-generate documentation"] }
    else a2
  if testishWords.any (fun w => containsSub w content) then
    { a3 with suggested_actions := a3.suggested_actions ++ [str "Generate test cases"] }
  else a3

/-- The effort estimate of `analyze_issue_for_automation`. -/
def setEffort (bodyLen : Nat) (content : Str) (st : Strategy) : Strategy :=
  if bodyLen > 500 || containsSub (str "complex") content ||
      containsSub (str "architecture") content then
    { st with estimated_effort := str "high" }
  else if bodyLen < 100 || containsSub (str "simple") content ||
      containsSub (str "typo") content then
    { st with estimated_effort := str "low" }
  else st

/-- `AutonomousAgent.analyze_issue_for_automation`: first-match scan of
`FIX_PATTERNS` over the lower-cased `title body` content, then the
label-trigger loop, the content-based action checks, and the effort
estimate. -/
def analyze_issue_for_automation (issue : IssueData) : Strategy :=
  let content := contentOf issue.title issue.body
  setEffort issue.body.length content
    (addContentActions content (issue.labels.foldl triggerFold (strategyAfterPatterns issue)))

/-! ### AutonomousAgent.generate_fix_code -/

/-- One entry of the `code_changes` list of a fix plan. -/
structure CodeChange where
  action : Str
  description : Str
  command : Str
  deriving DecidableEq

/-- The fix dictionary built by `AutonomousAgent.generate_fix_code`. -/
structure FixData where
  fixable : Bool
  fix_type : Str
  code_changes : List CodeChange
  explanation : Str
  confidence : ℚ
  deriving DecidableEq

/-- Condition of the syntax branch of `generate_fix_code`
(`"syntaxerror" in content or "indentation" in content`). -/
def fixCondSyntax (c : Str) : Bool :=
  containsSub (str "syntaxerror") c || containsSub (str "indentation") c

/-- Condition of the import branch
(`"importerror" in content or "modulenotfound" in content`). -/
def fixCondImport (c : Str) : Bool :=
  containsSub (str "importerror") c || containsSub (str "modulenotfound") c

/-- Condition of the security branch (any of the four security keywords). -/
def fixCondSecurity (c : Str) : Bool :=
  containsSub (str "sql injection") c || containsSub (str "xss") c ||
    containsSub (str "csrf") c || containsSub (str "vulnerability") c

/-- Condition of the deprecation branch (`"deprecat" in content`). -/
def fixCondDeprecation (c : Str) : Bool := containsSub (str "deprecat") c

/-- Condition of the typo branch
(`"typo" in content or "spelling" in content`). -/
def fixCondTypo (c : Str) : Bool :=
  containsSub (str "typo") c || containsSub (str "spelling") c

/-- `AutonomousAgent.generate_fix_code`: priority-ordered if/elif chain over
the lower-cased `description error_context` content; when nothing matches the
initial dictionary (not fixable, manual, confidence 0) is returned. -/
def generate_fix_code (issue_description error_context : Str) : FixData :=
  let content := contentOf issue_description error_context
  if fixCondSyntax content then
    { fixable := true, fix_type := str "syntax",
      code_changes := [⟨str "fix_indentation",
        str "Fix indentation issues using autopep8",
        str "autopep8 --in-place --aggressive"⟩],
      explanation := str "Auto-fix indentation and syntax issues",
      confidence := 9/10 }
  else if fixCondImport content then
    { fixable := true, fix_type := str "import",
      code_changes := [⟨str "add_import",
        str "Add missing import statement",
        str "Auto-detect and add import"⟩],
      explanation := str "Add missing import statements",
      confidence := 85/100 }
  else if fixCondSecurity content then
    { fixable := true, fix_type := str "security",
      code_changes := [⟨str "apply_security_fix",
        str "Apply security best practices",
        str "Apply parameterized queries, escape output"⟩],
      explanation := str "Apply security fixes and sanitization",
      confidence := 8/10 }
  else if fixCondDeprecation content then
    { fixable := true, fix_type := str "deprecation",
      code_changes := [⟨str "update_deprecated",
        str "Update to current API",
        str "Replace deprecated calls"⟩],
      explanation := str "Update deprecated API calls",
      confidence := 75/100 }
  else if fixCondTypo content then
    { fixable := true, fix_type := str "typo",
      code_changes := [⟨str "fix_typo",
        str "Correct spelling errors",
        str "Apply spell checker"⟩],
      explanation := str "Fix typos and spelling errors",
      confidence := 95/100 }
  else
    { fixable := false, fix_type := str "manual", code_changes := [],
      explanation := str "", confidence := 0 }

/-! ### AutonomousAgent.create_pr_strategy -/

/-- The task dictionary handed to `create_pr_strategy`
(`{"title": ..., "issue_number": ...}`). -/
structure TaskData where
  title : Option Str
  issue_number : Option Nat

/-- The PR-strategy dictionary built by `create_pr_strategy`. -/
structure PRStrategy where
  should_create_pr : Bool
  branch_name : Str
  pr_title : Str
  pr_body : Str
  auto_merge : Bool
  reviewers : List Str

/-- Characters kept by the slug regex `[^a-z0-9]+` on lower-cased text. -/
def slugOk (c : Char) : Bool := c.isLower || c.isDigit

/-- Python `re.sub(r"[^a-z0-9]+", "-", s)`: each maximal run of characters
outside `[a-z0-9]` becomes a single dash. -/
def slugify : Str → Str
  | [] => []
  | c :: rest =>
    if slugOk c then c :: slugify rest
    else '-' :: slugify (rest.dropWhile (fun d => !slugOk d))
termination_by l => l.length
decreasing_by
  · simp
  · have h := (List.dropWhile_sublist (l := rest) (fun d => !slugOk d)).length_le
    simp only [List.length_cons]
    omega

/-- Python `str.title()` (ASCII fragment): upper-case every letter that does
not follow a letter, lower-case the rest. -/
def titleCaseAux : Bool → Str → Str
  | _, [] => []
  | prevAlpha, c :: rest =>
    (if c.isAlpha then (if prevAlpha then c.toLower else c.toUpper) else c) ::
      titleCaseAux c.isAlpha rest

/-- Python `str.title()` entry point. -/
def titleCase (s : Str) : Str := titleCaseAux false s

/-- Rendering of an optional issue number in the PR body
(`task_data.get('issue_number', 'N/A')`; an absent number renders as the
default). -/
def issueNumberText : Option Nat → Str
  | some n => (Nat.repr n).data
  | none => str "N/A"

/-- Python `f"{confidence * 100:.0f}"` on the engine's confidence values:
round-half-to-even of `q * 100` to an integer, rendered in decimal. -/
def percentText (q : ℚ) : Str := (Int.repr (halfEven (q * 100))).data

/-- `AutonomousAgent.create_pr_strategy`: plan branch, title, body and
auto-merge eligibility; nothing is computed when the fix is not fixable. -/
def create_pr_strategy (task_data : TaskData) (fix_data : FixData) : PRStrategy :=
  let base : PRStrategy :=
    { should_create_pr := fix_data.fixable, branch_name := [], pr_title := [],
      pr_body := [], auto_merge := false, reviewers := [] }
  if !fix_data.fixable then base
  else
    let task_title := task_data.title.getD (str "fix")
    let sanitized_title := (slugify (lowerStr task_title)).take 50
    let fix_type := fix_data.fix_type
    let body :=
      str "## 🤖 Automated Fix\n\n**Issue**: #" ++ issueNumberText task_data.issue_number ++
      str "\n**Fix Type**: " ++ fix_type ++
      str "\n**Confidence**: " ++ percentText fix_data.confidence ++
      str "%\n\n### Changes Applied\n" ++
      (List.intercalate ['\n']
        (fix_data.code_changes.map (fun ch => str "- " ++ ch.description))) ++
      str "\n\n### Explanation\n" ++ fix_data.explanation ++
      str "\n\n### Testing\n- ✅ Syntax validation passed\n- ✅ Linting checks applied\n- ⚠️ Manual testing recommended\n\n---\n*This PR was automatically generated by the Autonomous Agent*\n*Review carefully before merging*\n"
    { base with
      branch_name := str "auto-fix/" ++ sanitized_title,
      pr_title := str "🤖 Auto-fix: " ++ titleCase fix_type ++ str " - " ++ task_title,
      pr_body := body,
      auto_merge := decide (9/10 ≤ fix_data.confidence ∧
        (fix_type = str "typo" ∨ fix_type = str "syntax")) }

/-! ### AutonomousAgent.execute_autonomous_workflow -/

/-- Payload of one audit-trace entry (the `data` value of a step record). -/
inductive StepData where
  | analyzeStep (s : Strategy)
  | generateFixStep (f : FixData)
  | prStrategyStep (p : PRStrategy)

/-- One `{step, status, data}` record of the workflow trace. -/
structure StepEntry where
  step : Str
  status : Str
  data : StepData

/-- The workflow-result dictionary of `execute_autonomous_workflow`. -/
structure WorkflowResult where
  issue_id : Option Nat
  steps_completed : List StepEntry
  status : Str
  pr_created : Bool
  pr_url : Option Str
  auto_merged : Bool

/-- `AutonomousAgent.execute_autonomous_workflow`: analyze, then (if
automatable) generate a fix, then (if fixable) plan a PR; each completed step
appends one trace record, and each early exit fixes the terminal status. -/
def execute_autonomous_workflow (issue : IssueData) : WorkflowResult :=
  let strategy := analyze_issue_for_automation issue
  let r1 : WorkflowResult :=
    { issue_id := issue.number,
      steps_completed := [⟨str "analyze", str "complete", .analyzeStep strategy⟩],
      status := str "pending", pr_created := false, pr_url := none,
      auto_merged := false }
  if !strategy.automatable then
    { r1 with status := str "manual_intervention_required" }
  else
    let fix_data := generate_fix_code issue.body issue.title
    let r2 := { r1 with steps_completed := r1.steps_completed ++
        [(⟨str "generate_fix", str "complete", .generateFixStep fix_data⟩ : StepEntry)] }
    if !fix_data.fixable then
      { r2 with status := str "not_fixable" }
    else
      let pr_strategy := create_pr_strategy ⟨some issue.title, issue.number⟩ fix_data
      let r3 := { r2 with steps_completed := r2.steps_completed ++
          [(⟨str "pr_strategy", str "complete", .prStrategyStep pr_strategy⟩ : StepEntry)] }
      { r3 with
        pr_created := true,
        pr_url := some (str "https://github.com/repo/pull/simulation"),
        status := str "pr_created" }

/-! ### Persistence model (Project, Task, User records and the store) -/

/-- A `models.User` row, as read by the engine. An empty `department` models
a NULL/empty (falsy) department. -/
structure UserRec where
  id : Nat
  username : Str
  first_name : Str
  last_name : Str
  role : UserRole
  department : Str
  is_active : Bool
  deriving DecidableEq

/-- A `models.Project` row, as read by the engine. -/
structure ProjectRec where
  id : Nat
  name : Str
  department_id : Option Nat
  deriving DecidableEq

/-- A `models.Task` row, as read and written by the engine.
`completed_date` records only whether a completion timestamp is set. -/
structure TaskRec where
  id : Nat
  project_id : Nat
  title : Str
  description : Str
  status : TaskStatus
  priority : TaskPriority
  estimated_hours : Option ℚ
  actual_hours : Option ℚ
  completed_date : Bool
  deriving DecidableEq

/-- The committed state of the persistence collaborator.  `next_id` is the
id the next flushed row receives. -/
structure Store where
  projects : List ProjectRec
  users : List UserRec
  tasks : List TaskRec
  next_id : Nat
  deriving DecidableEq

/-- `Project.query.get(project_id)`. -/
def getProject (s : Store) (pid : Nat) : Option ProjectRec :=
  s.projects.find? (fun p => p.id == pid)

/-! ### AITaskEngine.suggest_assignee -/

/-- `AITaskEngine.SKILL_KEYWORDS`, in dictionary (insertion) order. -/
def SKILL_KEYWORDS : List (Str × List Str) :=
  [ (str "backend", [str "api", str "backend", str "server", str "database",
      str "sql", str "flask", str "python"]),
    (str "frontend", [str "ui", str "frontend", str "html", str "css",
      str "javascript", str "react", str "vue"]),
    (str "devops", [str "ci/cd", str "deploy", str "docker", str "kubernetes",
      str "infrastructure"]),
    (str "security", [str "security", str "vulnerability", str "authentication",
      str "authorization"]),
    (str "database", [str "database", str "sql", str "migration", str "schema",
      str "postgres", str "sqlite"]),
    (str "testing", [str "test", str "testing", str "qa", str "quality",
      str "coverage"]),
    (str "documentation", [str "docs", str "documentation", str "readme",
      str "guide"]) ]

/-- The skill-identification loop of `suggest_assignee`: a skill tag is
appended once as soon as one of its keywords occurs in the content. -/
def requiredSkillsOf (content : Str) : List Str :=
  SKILL_KEYWORDS.foldl (fun acc sk =>
    if sk.2.any (fun k => containsSub k content) then acc ++ [sk.1] else acc) []

/-- The department bonus of `suggest_assignee`: 0.4 when a project id was
given, the project exists and has a department, and the user has any
department set (a coarse presence check, as in the source). -/
def deptBonus (store : Store) (project_id : Option Nat) (u : UserRec) : ℚ :=
  match project_id with
  | some pid =>
    match getProject store pid with
    | some p => if p.department_id.isSome && !u.department.isEmpty then 2/5 else 0
    | none => 0
  | none => 0

/-- The per-user score of `suggest_assignee`: 0.3 for Admin role, the
department bonus, and 0.3 × |required skills| / |skill table| when any skill
is required. -/
def userScore (store : Store) (project_id : Option Nat) (rs : List Str)
    (u : UserRec) : ℚ :=
  (if u.role = UserRole.admin then 3/10 else 0)
  + deptBonus store project_id u
  + (if rs ≠ [] then 3/10 * ((rs.length : ℚ) / (SKILL_KEYWORDS.length : ℚ)) else 0)

/-- One suggestion dictionary built by `suggest_assignee`. -/
structure Suggestion where
  user_id : Nat
  username : Str
  full_name : Str
  score : ℚ
  matched_skills : List Str
  deriving DecidableEq

/-- The suggestion record for one user: rounded score and the first two
matched skills. -/
def mkSuggestion (rs : List Str) (sc : ℚ) (u : UserRec) : Suggestion :=
  { user_id := u.id, username := u.username,
    full_name := u.first_name ++ str " " ++ u.last_name,
    score := roundTo 2 sc, matched_skills := rs.take 2 }

/-- Loop body of the user-scoring loop: keep a user only when the raw score
is positive. -/
def suggestStep (store : Store) (project_id : Option Nat) (rs : List Str)
    (acc : List Suggestion) (u : UserRec) : List Suggestion :=
  if userScore store project_id rs u > 0 then
    acc ++ [mkSuggestion rs (userScore store project_id rs u) u]
  else acc

/-- The result dictionary of `suggest_assignee`. -/
structure AssigneeSuggestions where
  suggestions : List Suggestion
  required_skills : List Str
  confidence : ℚ
  deriving DecidableEq

/-- `AITaskEngine.suggest_assignee`: skill identification, per-user scoring of
the active users, stable descending sort by score, top five. -/
def suggest_assignee (store : Store) (task_title task_description : Str)
    (project_id : Option Nat) : AssigneeSuggestions :=
  let content := contentOf task_title task_description
  let required_skills := requiredSkillsOf content
  let available := store.users.filter (fun u => u.is_active)
  let suggestions :=
    available.foldl (suggestStep store project_id required_skills) []
  let sorted := suggestions.mergeSort (fun a b => decide (b.score ≤ a.score))
  { suggestions := sorted.take 5,
    required_skills := required_skills,
    confidence := if !sorted.isEmpty then 7/10 else 3/10 }

/-! ### AITaskEngine.track_build_progress -/

/-- The progress dictionary of `track_build_progress` in the found case.
`predicted_completion_weeks` carries the weeks offset of the predicted
completion date (`datetime.now()` itself is outside the model); nullness is
exactly that of the source. -/
structure ProgressReport where
  project_id : Nat
  project_name : Str
  total_tasks : Nat
  completed_tasks : Nat
  in_progress_tasks : Nat
  blocked_tasks : Nat
  completion_percentage : ℚ
  total_estimated_hours : ℚ
  total_actual_hours : ℚ
  velocity : ℚ
  predicted_completion_weeks : Option ℚ
  on_track : Bool
  deriving DecidableEq

/-- Result of `track_build_progress`: either the
`{"error": "Project not found"}` dictionary or the full progress report. -/
inductive ProgressResult where
  | notFound
  | ok (r : ProgressReport)
  deriving DecidableEq

/-- `progress.get("blocked_tasks", 0)`: the error dictionary has no such key,
so the default applies. -/
def ProgressResult.getBlocked : ProgressResult → Nat
  | .notFound => 0
  | .ok r => r.blocked_tasks

/-- `progress.get("on_track", True)`. -/
def ProgressResult.getOnTrack : ProgressResult → Bool
  | .notFound => true
  | .ok r => r.on_track

/-- `progress.get("completion_percentage", 0)`. -/
def ProgressResult.getCompletion : ProgressResult → ℚ
  | .notFound => 0
  | .ok r => r.completion_percentage

/-- `AITaskEngine.track_build_progress`: task counts, time totals, velocity,
completion prediction and on-track flag for one project. -/
def track_build_progress (store : Store) (project_id : Nat) : ProgressResult :=
  match getProject store project_id with
  | none => .notFound
  | some project =>
    let tasks := store.tasks.filter (fun t => t.project_id == project_id)
    let total_tasks := tasks.length
    let completed_tasks := tasks.countP (fun t => t.status == TaskStatus.completed)
    let in_progress_tasks := tasks.countP (fun t => t.status == TaskStatus.in_progress)
    let blocked_tasks := tasks.countP (fun t => t.status == TaskStatus.blocked)
    let total_estimated := (tasks.map (fun t => t.estimated_hours.getD 0)).sum
    let total_actual := (tasks.map (fun t => t.actual_hours.getD 0)).sum
    let completed_with_dates := tasks.countP
      (fun t => t.completed_date && t.status == TaskStatus.completed)
    let velocity : ℚ := (completed_with_dates : ℚ) / ((max 1 (total_tasks / 7) : ℕ) : ℚ)
    let predicted : Option ℚ :=
      if completed_tasks > 0 ∧ velocity > 0 then
        some (((total_tasks : ℚ) - (completed_tasks : ℚ)) / velocity)
      else none
    .ok {
      project_id := project_id,
      project_name := project.name,
      total_tasks := total_tasks,
      completed_tasks := completed_tasks,
      in_progress_tasks := in_progress_tasks,
      blocked_tasks := blocked_tasks,
      completion_percentage :=
        roundTo 1 (if total_tasks > 0 then
          (completed_tasks : ℚ) / (total_tasks : ℚ) * 100 else 0),
      total_estimated_hours := roundTo 1 total_estimated,
      total_actual_hours := roundTo 1 total_actual,
      velocity := roundTo 2 velocity,
      predicted_completion_weeks := predicted,
      on_track := decide (if total_estimated > 0 then
        total_actual ≤ total_estimated * (11/10) else True) }

/-! ### BuildTracker -/

/-- The Task row constructed for one subtask template in
`create_feature_tasks`; `flush` assigns the id. -/
def mkTaskRec (pid : Nat) (id : Nat) (t : SubtaskTemplate) : TaskRec :=
  { id := id, project_id := pid, title := t.title, description := t.description,
    status := TaskStatus.todo, priority := t.priority,
    estimated_hours := some (t.estimated_hours : ℚ), actual_hours := none,
    completed_date := false }

/-- The add/flush loop of `create_feature_tasks` inside the open transaction:
builds the pending rows and their flushed ids, or raises on the first failing
flush (`oracle i = true` means the i-th flush fails). -/
def persistSubtasks (pid : Nat) (oracle : Nat → Bool) :
    List SubtaskTemplate → Nat → Nat → Except Unit (List TaskRec × List Nat)
  | [], _, _ => .ok ([], [])
  | t :: ts, nextId, idx =>
    if oracle idx then .error ()
    else
      match persistSubtasks pid oracle ts (nextId + 1) (idx + 1) with
      | .ok (rows, ids) => .ok (mkTaskRec pid nextId t :: rows, nextId :: ids)
      | .error e => .error e

/-- `BuildTracker.create_feature_tasks`: decompose the feature, add and flush
every subtask inside one transaction, commit once at the end.  On a failing
flush the exception propagates before the commit, so the committed store is
returned unchanged (the transaction rolls back). -/
def create_feature_tasks (store : Store) (oracle : Nat → Bool) (project_id : Nat)
    (feature_name feature_description : Str) : Except Store (Store × List Nat) :=
  let subtasks := decompose_task feature_name feature_description
  match persistSubtasks project_id oracle subtasks store.next_id 0 with
  | .error _ => .error store
  | .ok (rows, ids) =>
    .ok ({ store with tasks := store.tasks ++ rows,
                      next_id := store.next_id + rows.length }, ids)

/-- The build-status dictionary: the progress dictionary extended with the
two health keys. -/
structure BuildStatus where
  progress : ProgressResult
  health_score : ℚ
  health_status : Str
  deriving DecidableEq

/-- The clamped health score of `get_build_status`: start at 100, −10 per
blocked task, −20 when not on track, −10 when completion is below 10%, then
clamp into [0, 100].  The inputs are read with the dictionary defaults. -/
def healthScoreOf (p : ProgressResult) : ℚ :=
  let h0 : ℚ := 100
  let h1 := if p.getBlocked > 0 then h0 - (p.getBlocked : ℚ) * 10 else h0
  let h2 := if !p.getOnTrack then h1 - 20 else h1
  let h3 := if p.getCompletion < 10 then h2 - 10 else h2
  max 0 (min 100 h3)

/-- The qualitative label derived from the clamped health score. -/
def healthLabel (hs : ℚ) : Str :=
  if hs ≥ 90 then str "excellent"
  else if hs ≥ 75 then str "good"
  else if hs ≥ 60 then str "fair"
  else str "poor"

/-- `BuildTracker.get_build_status`: the progress dictionary extended with
the rounded health score and its qualitative label (the label is derived from
the unrounded clamped score, as in the source). -/
def get_build_status (store : Store) (project_id : Nat) : BuildStatus :=
  let progress := track_build_progress store project_id
  { progress := progress,
    health_score := roundTo 1 (healthScoreOf progress),
    health_status := healthLabel (healthScoreOf progress) }

/-- Store with one active admin user, used by the C7 witness. -/
def storeW : Store :=
  ⟨[], [⟨1, str "alice", str "Alice", str "A", .admin, str "", true⟩], [], 0⟩

/-- The single suggestion `suggest_assignee` produces on `storeW` for the
title "api". -/
def suggW : Suggestion := ⟨1, str "alice", str "Alice A", 17/50, [str "backend"]⟩

/-- A fold that raises the accumulator to `m` whenever a keyword matches acts
as a single conditional raise over the whole list. -/
theorem foldl_max_kw (c : Str) (m : Int) :
    ∀ (ks : List Str) (s : Int),
      ks.foldl (fun a k => if containsSub k c then max a m else a) s
        = if ks.any (fun k => containsSub k c) then max s m else s
  | [], _ => by simp
  | k :: ks, s => by
    simp only [List.foldl_cons, List.any_cons]
    by_cases h : containsSub k c = true
    · simp only [h, if_true, Bool.true_or, foldl_max_kw c m ks (max s m)]
      by_cases h2 : ks.any (fun k => containsSub k c) = true <;>
        simp [h2, max_assoc]
    · simp only [Bool.not_eq_true] at h
      simp [h, foldl_max_kw c m ks s]

/-- A fold that lowers the accumulator to `m` whenever a keyword matches acts
as a single conditional lowering over the whole list. -/
theorem foldl_min_kw (c : Str) (m : Int) :
    ∀ (ks : List Str) (s : Int),
      ks.foldl (fun a k => if containsSub k c then min a m else a) s
        = if ks.any (fun k => containsSub k c) then min s m else s
  | [], _ => by simp
  | k :: ks, s => by
    simp only [List.foldl_cons, List.any_cons]
    by_cases h : containsSub k c = true
    · simp only [h, if_true, Bool.true_or, foldl_min_kw c m ks (min s m)]
      by_cases h2 : ks.any (fun k => containsSub k c) = true <;>
        simp [h2, min_assoc]
    · simp only [Bool.not_eq_true] at h
      simp [h, foldl_min_kw c m ks s]

/-- Closed form of the complexity score: the low-keyword lowering is applied
after the high-keyword raising, and the medium raising never changes a score
that already starts at 5. -/
theorem complexityScoreOf_eq (c : Str) :
    complexityScoreOf c =
      (if hasKw COMPLEXITY_LOW c then 3
       else if hasKw COMPLEXITY_HIGH c then 8
       else 5) + wordAdj c := by
  simp only [complexityScoreOf, wordAdj, hasKw, foldl_max_kw, foldl_min_kw]
  by_cases hh : List.any COMPLEXITY_HIGH (fun k => containsSub k c) = true <;>
    by_cases hm : List.any COMPLEXITY_MEDIUM (fun k => containsSub k c) = true <;>
    by_cases hl : List.any COMPLEXITY_LOW (fun k => containsSub k c) = true <;>
    simp only [hh, hm, hl, if_true, if_false, Bool.false_eq_true] <;>
    split_ifs <;> omega

/-- The threshold mapping of scores to priorities is monotone. -/
theorem prioEstOf_mono {s1 s2 : Int} (h : s1 ≤ s2) :
    prioRank (prioEstOf s1).1 ≤ prioRank (prioEstOf s2).1 := by
  unfold prioEstOf
  split_ifs <;> simp [prioRank] <;> omega

/-- C1: `decompose_task` emits exactly the four build-phase subtasks
(Design-and-plan High/4h, Implement-core High/16h, Write-tests Medium/6h,
Documentation Low/2h, 28 hours in total, each title `<phase>: <title>`) when
the lower-cased title contains a build keyword; otherwise exactly the three
fix-phase subtasks (Investigate High/2h, Fix High/4h, Test Medium/2h, 8 hours
total) when it contains a fix keyword; otherwise the empty list.  The build
rule takes precedence when both keyword sets match. -/
theorem decompose_task_spec (t d : Str) :
    (buildKeywords.any (fun w => containsSub w (lowerStr t)) = true →
       decompose_task t d =
         [ { title := str "Design and plan: " ++ t,
             description := str "Create technical design and implementation plan",
             priority := .high, estimated_hours := 4 },
           { title := str "Implement core functionality: " ++ t,
             description := str "Develop the main features and functionality",
             priority := .high, estimated_hours := 16 },
           { title := str "Write tests: " ++ t,
             description := str "Create unit and integration tests",
             priority := .medium, estimated_hours := 6 },
           { title := str "Documentation: " ++ t,
             description := str "Write documentation and usage examples",
             priority := .low, estimated_hours := 2 } ]
       ∧ ((decompose_task t d).map SubtaskTemplate.estimated_hours).sum = 28)
  ∧ (buildKeywords.any (fun w => containsSub w (lowerStr t)) = false →
       fixIntentKeywords.any (fun w => containsSub w (lowerStr t)) = true →
       decompose_task t d =
         [ { title := str "Investigate: " ++ t,
             description := str "Identify root cause and impact",
             priority := .high, estimated_hours := 2 },
           { title := str "Fix: " ++ t,
             description := str "Implement the fix",
             priority := .high, estimated_hours := 4 },
           { title := str "Test: " ++ t,
             description := str "Verify the fix and prevent regression",
             priority := .medium, estimated_hours := 2 } ]
       ∧ ((decompose_task t d).map SubtaskTemplate.estimated_hours).sum = 8)
  ∧ (buildKeywords.any (fun w => containsSub w (lowerStr t)) = false →
       fixIntentKeywords.any (fun w => containsSub w (lowerStr t)) = false →
       decompose_task t d = []) := by
  refine ⟨fun hb => ?_, fun hb hf => ?_, fun hb hf => ?_⟩
  · unfold decompose_task
    rw [if_pos hb]
    exact ⟨rfl, rfl⟩
  · unfold decompose_task
    rw [if_neg (by simp [hb]), if_pos hf]
    exact ⟨rfl, rfl⟩
  · unfold decompose_task
    rw [if_neg (by simp [hb]), if_neg (by simp [hf])]

/-- Witness for C1 at the three example titles from the specification. -/
theorem decompose_task_spec_witness :
    ((decompose_task (str "Implement new login flow") (str "")).map
        SubtaskTemplate.estimated_hours).sum = 28
    ∧ ((decompose_task (str "Fix crash on save") (str "")).map
        SubtaskTemplate.estimated_hours).sum = 8
    ∧ decompose_task (str "Update README") (str "") = [] :=
  ⟨((decompose_task_spec (str "Implement new login flow") (str "")).1 (by decide)).2,
   ((decompose_task_spec (str "Fix crash on save") (str "")).2.1 (by decide) (by decide)).2,
   (decompose_task_spec (str "Update README") (str "")).2.2 (by decide) (by decide)⟩

/-- C2: adding high-complexity keywords to the text, while keeping the
word-count band and the medium/low keyword presence unchanged, never lowers
the suggested priority (Low < Medium < High < Urgent) — in particular also
when low-complexity keywords are present, because the lowering to 3 is
applied after the raising to 8. -/
theorem analyze_priority_monotone (t1 d1 t2 d2 : Str)
    (hband : wordAdj (contentOf t1 d1) = wordAdj (contentOf t2 d2))
    (hhigh : hasKw COMPLEXITY_HIGH (contentOf t1 d1) = true →
             hasKw COMPLEXITY_HIGH (contentOf t2 d2) = true)
    (hmed : hasKw COMPLEXITY_MEDIUM (contentOf t1 d1) =
            hasKw COMPLEXITY_MEDIUM (contentOf t2 d2))
    (hlow : hasKw COMPLEXITY_LOW (contentOf t1 d1) =
            hasKw COMPLEXITY_LOW (contentOf t2 d2)) :
    prioRank (analyze_task_complexity t1 d1).suggested_priority ≤
      prioRank (analyze_task_complexity t2 d2).suggested_priority := by
  show prioRank (prioEstOf (complexityScoreOf (contentOf t1 d1))).1 ≤
      prioRank (prioEstOf (complexityScoreOf (contentOf t2 d2))).1
  apply prioEstOf_mono
  rw [complexityScoreOf_eq, complexityScoreOf_eq, hlow, hband]
  by_cases hL : hasKw COMPLEXITY_LOW (contentOf t2 d2) = true
  · simp [hL]
  · by_cases hH2 : hasKw COMPLEXITY_HIGH (contentOf t2 d2) = true
    · by_cases hH1 : hasKw COMPLEXITY_HIGH (contentOf t1 d1) = true <;>
        simp [hL, hH1, hH2] <;> omega
    · have hH1 : hasKw COMPLEXITY_HIGH (contentOf t1 d1) = false := by
        cases h : hasKw COMPLEXITY_HIGH (contentOf t1 d1)
        · rfl
        · exact absurd (hhigh h) (by simp [hH2])
      simp [hL, hH1, hH2]

/-- Witness for C2: a keyword-free one-word title against a one-word title
containing the high-complexity keyword "critical", same word-count band. -/
theorem analyze_priority_monotone_witness :
    prioRank (analyze_task_complexity (str "hello") (str "")).suggested_priority ≤
      prioRank (analyze_task_complexity (str "critical") (str "")).suggested_priority :=
  analyze_priority_monotone (str "hello") (str "") (str "critical") (str "")
    (by decide) (by decide) (by decide) (by decide)

/-- The label-trigger fold leaves the strategy unchanged when no label is an
automation trigger. -/
theorem labels_fold_no_trigger (labels : List Label)
    (h : labels.all (fun l => (AUTOMATION_TRIGGERS.lookup l.name).isNone) = true) :
    ∀ st : Strategy, labels.foldl triggerFold st = st := by
  induction labels with
  | nil => intro st; rfl
  | cons l ls ih =>
    intro st
    simp only [List.all_cons, Bool.and_eq_true] at h
    have h1 : AUTOMATION_TRIGGERS.lookup l.name = none := by
      cases hx : AUTOMATION_TRIGGERS.lookup l.name
      · rfl
      · rw [hx] at h; simp at h
    simp only [List.foldl_cons, triggerFold, h1]
    exact ih h.2 st

/-- The content-action checks never change the `automatable` flag. -/
theorem addContentActions_automatable (content : Str) (st : Strategy) :
    (addContentActions content st).automatable = st.automatable := by
  unfold addContentActions
  split_ifs <;> rfl

/-- The effort estimate never changes the `automatable` flag. -/
theorem setEffort_automatable (bodyLen : Nat) (content : Str) (st : Strategy) :
    (setEffort bodyLen content st).automatable = st.automatable := by
  unfold setEffort
  split_ifs <;> rfl

/-- `automatable` is decided entirely by the pattern scan and the trigger
labels. -/
theorem analyze_automatable_eq (issue : IssueData) :
    (analyze_issue_for_automation issue).automatable =
      (issue.labels.foldl triggerFold (strategyAfterPatterns issue)).automatable := by
  unfold analyze_issue_for_automation
  rw [setEffort_automatable, addContentActions_automatable]

/-- C3: `execute_autonomous_workflow` always ends in exactly one of the three
terminal statuses, with one trace record per completed step (1 for
manual_intervention_required, 2 for not_fixable, 3 for pr_created); and on an
issue matching no fix pattern and carrying no automation-trigger label the
status is manual_intervention_required with exactly one trace entry. -/
theorem workflow_terminal_spec (issue : IssueData) :
    ((execute_autonomous_workflow issue).status = str "manual_intervention_required" ∧
       (execute_autonomous_workflow issue).steps_completed.length = 1
     ∨ (execute_autonomous_workflow issue).status = str "not_fixable" ∧
       (execute_autonomous_workflow issue).steps_completed.length = 2
     ∨ (execute_autonomous_workflow issue).status = str "pr_created" ∧
       (execute_autonomous_workflow issue).steps_completed.length = 3)
  ∧ (FIX_PATTERNS.all (fun p => !p.detection (contentOf issue.title issue.body)) = true →
     issue.labels.all (fun l => (AUTOMATION_TRIGGERS.lookup l.name).isNone) = true →
     (execute_autonomous_workflow issue).status = str "manual_intervention_required" ∧
       (execute_autonomous_workflow issue).steps_completed.length = 1) := by
  have main : ∀ _ : Unit,
      (execute_autonomous_workflow issue).status = str "manual_intervention_required" ∧
        (execute_autonomous_workflow issue).steps_completed.length = 1
      ∨ (execute_autonomous_workflow issue).status = str "not_fixable" ∧
        (execute_autonomous_workflow issue).steps_completed.length = 2
      ∨ (execute_autonomous_workflow issue).status = str "pr_created" ∧
        (execute_autonomous_workflow issue).steps_completed.length = 3 := by
    intro _
    by_cases ha : (analyze_issue_for_automation issue).automatable = true
    · by_cases hf : (generate_fix_code issue.body issue.title).fixable = true
      · right; right
        simp [execute_autonomous_workflow, ha, hf]
      · right; left
        rw [Bool.not_eq_true] at hf
        simp [execute_autonomous_workflow, ha, hf]
    · left
      rw [Bool.not_eq_true] at ha
      simp [execute_autonomous_workflow, ha]
  refine ⟨main (), fun hpat htrig => ?_⟩
  have hfind : FIX_PATTERNS.find?
      (fun p => p.detection (contentOf issue.title issue.body)) = none := by
    apply List.find?_eq_none.mpr
    intro p hp
    have h1 := List.all_eq_true.mp hpat p hp
    simp_all
  have hauto : (analyze_issue_for_automation issue).automatable = false := by
    rw [analyze_automatable_eq, labels_fold_no_trigger issue.labels htrig]
    simp [strategyAfterPatterns, hfind]
  simp [execute_autonomous_workflow, hauto]

/-- Witness for C3 on a concrete issue matching no pattern and no trigger. -/
theorem workflow_terminal_spec_witness :
    (execute_autonomous_workflow ⟨some 7, str "Update README", str "", []⟩).status =
        str "manual_intervention_required"
    ∧ (execute_autonomous_workflow
        ⟨some 7, str "Update README", str "", []⟩).steps_completed.length = 1 :=
  (workflow_terminal_spec ⟨some 7, str "Update README", str "", []⟩).2
    (by decide) (by decide)

/-- C8: `generate_fix_code` checks its five patterns in the fixed order
syntax (0.9), import (0.85), security (0.8), deprecation (0.75), typo (0.95),
the first match winning, and returns the non-fixable manual result with
confidence 0 when nothing matches. -/
theorem generate_fix_code_spec (d ctx : Str) :
    (fixCondSyntax (contentOf d ctx) = true →
       (generate_fix_code d ctx).fixable = true ∧
       (generate_fix_code d ctx).fix_type = str "syntax" ∧
       (generate_fix_code d ctx).confidence = 9/10)
  ∧ (fixCondSyntax (contentOf d ctx) = false →
     fixCondImport (contentOf d ctx) = true →
       (generate_fix_code d ctx).fixable = true ∧
       (generate_fix_code d ctx).fix_type = str "import" ∧
       (generate_fix_code d ctx).confidence = 85/100)
  ∧ (fixCondSyntax (contentOf d ctx) = false →
     fixCondImport (contentOf d ctx) = false →
     fixCondSecurity (contentOf d ctx) = true →
       (generate_fix_code d ctx).fixable = true ∧
       (generate_fix_code d ctx).fix_type = str "security" ∧
       (generate_fix_code d ctx).confidence = 8/10)
  ∧ (fixCondSyntax (contentOf d ctx) = false →
     fixCondImport (contentOf d ctx) = false →
     fixCondSecurity (contentOf d ctx) = false →
     fixCondDeprecation (contentOf d ctx) = true →
       (generate_fix_code d ctx).fixable = true ∧
       (generate_fix_code d ctx).fix_type = str "deprecation" ∧
       (generate_fix_code d ctx).confidence = 75/100)
  ∧ (fixCondSyntax (contentOf d ctx) = false →
     fixCondImport (contentOf d ctx) = false →
     fixCondSecurity (contentOf d ctx) = false →
     fixCondDeprecation (contentOf d ctx) = false →
     fixCondTypo (contentOf d ctx) = true →
       (generate_fix_code d ctx).fixable = true ∧
       (generate_fix_code d ctx).fix_type = str "typo" ∧
       (generate_fix_code d ctx).confidence = 95/100)
  ∧ (fixCondSyntax (contentOf d ctx) = false →
     fixCondImport (contentOf d ctx) = false →
     fixCondSecurity (contentOf d ctx) = false →
     fixCondDeprecation (contentOf d ctx) = false →
     fixCondTypo (contentOf d ctx) = false →
       (generate_fix_code d ctx).fixable = false ∧
       (generate_fix_code d ctx).fix_type = str "manual" ∧
       (generate_fix_code d ctx).confidence = 0) := by
  refine ⟨fun h1 => ?_, fun h1 h2 => ?_, fun h1 h2 h3 => ?_,
         fun h1 h2 h3 h4 => ?_, fun h1 h2 h3 h4 h5 => ?_,
         fun h1 h2 h3 h4 h5 => ?_⟩ <;>
    simp [generate_fix_code, h1] <;> simp [h2] <;> simp [h3] <;>
      simp [h4] <;> simp [h5]

/-- Witness for C8 exercising all six branches; in particular a text
containing both a syntax marker and "typo" classifies as syntax with
confidence 0.9, not 0.95. -/
theorem generate_fix_code_spec_witness :
    ((generate_fix_code (str "SyntaxError and a typo") (str "")).fix_type = str "syntax" ∧
      (generate_fix_code (str "SyntaxError and a typo") (str "")).confidence = 9/10)
    ∧ (generate_fix_code (str "ImportError") (str "")).fix_type = str "import"
    ∧ (generate_fix_code (str "vulnerability") (str "")).fix_type = str "security"
    ∧ (generate_fix_code (str "deprecated") (str "")).fix_type = str "deprecation"
    ∧ (generate_fix_code (str "typo") (str "")).fix_type = str "typo"
    ∧ ((generate_fix_code (str "hello") (str "")).fixable = false ∧
        (generate_fix_code (str "hello") (str "")).fix_type = str "manual" ∧
        (generate_fix_code (str "hello") (str "")).confidence = 0) :=
  ⟨⟨((generate_fix_code_spec (str "SyntaxError and a typo") (str "")).1 (by decide)).2.1,
    ((generate_fix_code_spec (str "SyntaxError and a typo") (str "")).1 (by decide)).2.2⟩,
   ((generate_fix_code_spec (str "ImportError") (str "")).2.1 (by decide) (by decide)).2.1,
   ((generate_fix_code_spec (str "vulnerability") (str "")).2.2.1
      (by decide) (by decide) (by decide)).2.1,
   ((generate_fix_code_spec (str "deprecated") (str "")).2.2.2.1
      (by decide) (by decide) (by decide) (by decide)).2.1,
   ((generate_fix_code_spec (str "typo") (str "")).2.2.2.2.1
      (by decide) (by decide) (by decide) (by decide) (by decide)).2.1,
   (generate_fix_code_spec (str "hello") (str "")).2.2.2.2.2
      (by decide) (by decide) (by decide) (by decide) (by decide)⟩

/-- C10: an issue whose text matches the type_error pattern is classified as
automatable, yet the same issue runs the workflow into the not_fixable
terminal state, because `generate_fix_code` has no branch recognising
TypeError/AttributeError text. -/
theorem classifier_synthesizer_gap :
    (analyze_issue_for_automation ⟨some 1, str "TypeError", str "", []⟩).automatable = true
    ∧ (execute_autonomous_workflow ⟨some 1, str "TypeError", str "", []⟩).status =
        str "not_fixable" := by
  constructor <;> decide

/-! ### Rounding lemmas -/

/-- Round-half-to-even stays within one of the floor. -/
theorem halfEven_bounds (x : ℚ) : ⌊x⌋ ≤ halfEven x ∧ halfEven x ≤ ⌊x⌋ + 1 := by
  simp only [halfEven]
  split_ifs <;> omega

/-- Round-half-to-even of an integer is that integer. -/
theorem halfEven_intCast (n : ℤ) : halfEven (n : ℚ) = n := by
  unfold halfEven
  simp [Int.floor_intCast]

/-- `round(x, 1)` of an integer value is that value. -/
theorem roundTo_one_intCast (n : ℤ) : roundTo 1 ((n : ℚ)) = n := by
  unfold roundTo
  have h : ((n : ℚ)) * 10 ^ 1 = ((n * 10 : ℤ) : ℚ) := by push_cast; ring
  rw [h, halfEven_intCast]
  push_cast
  field_simp

/-- `round(0, d) = 0`. -/
theorem roundTo_zero (d : ℕ) : roundTo d 0 = 0 := by
  unfold roundTo
  have h : (0 : ℚ) * 10 ^ d = ((0 : ℤ) : ℚ) := by push_cast; ring
  rw [h, halfEven_intCast]
  simp

/-- Closed form of the clamped health score. -/
theorem healthScoreOf_formula (p : ProgressResult) :
    healthScoreOf p =
      max 0 (min 100 (100 - (p.getBlocked : ℚ) * 10
        - (if p.getOnTrack then 0 else 20)
        - (if p.getCompletion < 10 then (10 : ℚ) else 0))) := by
  simp only [healthScoreOf]
  by_cases hb : p.getBlocked > 0
  · by_cases ho : p.getOnTrack <;>
      by_cases hc : p.getCompletion < 10 <;>
      simp only [hb, ho, hc, if_true, if_false, Bool.not_true, Bool.not_false,
        Bool.false_eq_true, ite_true, ite_false] <;>
      ring_nf
  · have hb0 : p.getBlocked = 0 := by omega
    by_cases ho : p.getOnTrack <;>
      by_cases hc : p.getCompletion < 10 <;>
      simp [hb0, ho, hc] <;>
      ring_nf

/-- The clamped health score is an integer value. -/
theorem healthScoreOf_isInt (p : ProgressResult) :
    healthScoreOf p =
      ((max 0 (min 100 (100 - (p.getBlocked : ℤ) * 10
        - (if p.getOnTrack then 0 else 20)
        - (if p.getCompletion < 10 then (10 : ℤ) else 0))) : ℤ) : ℚ) := by
  rw [healthScoreOf_formula]
  by_cases ho : p.getOnTrack <;> by_cases hc : p.getCompletion < 10 <;>
    simp only [ho, hc, if_true, if_false, ite_true, ite_false] <;> push_cast <;> ring_nf

/-- Rounding to one decimal does not change the (integer-valued) clamped
health score. -/
theorem roundTo_one_healthScoreOf (p : ProgressResult) :
    roundTo 1 (healthScoreOf p) = healthScoreOf p := by
  rw [healthScoreOf_isInt, roundTo_one_intCast]

/-- The label thresholds, as iff-characterisations. -/
theorem healthLabel_iff (hs : ℚ) :
    (healthLabel hs = str "excellent" ↔ 90 ≤ hs)
    ∧ (healthLabel hs = str "good" ↔ 75 ≤ hs ∧ hs < 90)
    ∧ (healthLabel hs = str "fair" ↔ 60 ≤ hs ∧ hs < 75)
    ∧ (healthLabel hs = str "poor" ↔ hs < 60) := by
  unfold healthLabel
  split_ifs with h1 h2 h3
  · exact ⟨⟨fun _ => h1, fun _ => rfl⟩,
      ⟨fun hx => absurd hx (by decide), fun hx => absurd hx.2 (by linarith)⟩,
      ⟨fun hx => absurd hx (by decide), fun hx => absurd hx.2 (by linarith)⟩,
      ⟨fun hx => absurd hx (by decide), fun hx => absurd hx (by linarith)⟩⟩
  · exact ⟨⟨fun hx => absurd hx (by decide), fun hx => absurd hx (by linarith)⟩,
      ⟨fun _ => ⟨h2, by linarith⟩, fun _ => rfl⟩,
      ⟨fun hx => absurd hx (by decide), fun hx => absurd hx.2 (by linarith)⟩,
      ⟨fun hx => absurd hx (by decide), fun hx => absurd hx (by linarith)⟩⟩
  · exact ⟨⟨fun hx => absurd hx (by decide), fun hx => absurd hx (by linarith)⟩,
      ⟨fun hx => absurd hx (by decide), fun hx => absurd hx.1 (by linarith)⟩,
      ⟨fun _ => ⟨h3, by linarith⟩, fun _ => rfl⟩,
      ⟨fun hx => absurd hx (by decide), fun hx => absurd hx (by linarith)⟩⟩
  · exact ⟨⟨fun hx => absurd hx (by decide), fun hx => absurd hx (by linarith)⟩,
      ⟨fun hx => absurd hx (by decide), fun hx => absurd hx.1 (by linarith)⟩,
      ⟨fun hx => absurd hx (by decide), fun hx => absurd hx.1 (by linarith)⟩,
      ⟨fun _ => by linarith, fun _ => rfl⟩⟩

/-- C6: the health score of `get_build_status` is always in [0, 100], equals
the clamped value of 100 − 10·blocked − (20 if not on track) − (10 if
completion < 10), and the qualitative label satisfies the 90/75/60 threshold
characterisation. -/
theorem build_status_health_spec (store : Store) (pid : Nat) :
    (0 ≤ (get_build_status store pid).health_score
      ∧ (get_build_status store pid).health_score ≤ 100)
    ∧ (get_build_status store pid).health_score =
        max 0 (min 100 (100 - ((track_build_progress store pid).getBlocked : ℚ) * 10
          - (if (track_build_progress store pid).getOnTrack then 0 else 20)
          - (if (track_build_progress store pid).getCompletion < 10 then (10 : ℚ) else 0)))
    ∧ ((get_build_status store pid).health_status = str "excellent" ↔
        90 ≤ (get_build_status store pid).health_score)
    ∧ ((get_build_status store pid).health_status = str "good" ↔
        75 ≤ (get_build_status store pid).health_score ∧
          (get_build_status store pid).health_score < 90)
    ∧ ((get_build_status store pid).health_status = str "fair" ↔
        60 ≤ (get_build_status store pid).health_score ∧
          (get_build_status store pid).health_score < 75)
    ∧ ((get_build_status store pid).health_status = str "poor" ↔
        (get_build_status store pid).health_score < 60) := by
  have hsc : (get_build_status store pid).health_score =
      healthScoreOf (track_build_progress store pid) :=
    roundTo_one_healthScoreOf (track_build_progress store pid)
  have hst : (get_build_status store pid).health_status =
      healthLabel (healthScoreOf (track_build_progress store pid)) := rfl
  rw [hsc, hst]
  refine ⟨⟨?_, ?_⟩, healthScoreOf_formula _, (healthLabel_iff _).1,
    (healthLabel_iff _).2.1, (healthLabel_iff _).2.2.1, (healthLabel_iff _).2.2.2⟩
  · rw [healthScoreOf_formula]
    exact le_max_left 0 _
  · rw [healthScoreOf_formula]
    exact max_le (by norm_num) (min_le_left _ _)

/-- Witness for C6 on the empty store. -/
theorem build_status_health_spec_witness :
    0 ≤ (get_build_status ⟨[], [], [], 0⟩ 0).health_score ∧
      (get_build_status ⟨[], [], [], 0⟩ 0).health_score ≤ 100 :=
  (build_status_health_spec ⟨[], [], [], 0⟩ 0).1

/-- C9: for a project id absent from the store, `get_build_status` returns
the not-found error dictionary augmented with health_score 90.0 and
health_status "excellent" (the defaults 0 blocked, on-track, 0% completion
leave only the low-completion penalty). -/
theorem build_status_not_found (store : Store) (pid : Nat)
    (hp : getProject store pid = none) :
    get_build_status store pid =
      { progress := ProgressResult.notFound, health_score := 90,
        health_status := str "excellent" } := by
  have hprog : track_build_progress store pid = .notFound := by
    unfold track_build_progress
    rw [hp]
  have h90 : healthScoreOf .notFound = 90 := by
    norm_num [healthScoreOf, ProgressResult.getBlocked, ProgressResult.getOnTrack,
      ProgressResult.getCompletion]
  have hr90 : roundTo 1 (90 : ℚ) = 90 := by
    have h := roundTo_one_intCast 90
    push_cast at h
    exact h
  have hl90 : healthLabel (90 : ℚ) = str "excellent" := by
    unfold healthLabel
    norm_num
  simp only [get_build_status]
  rw [hprog, h90, hr90, hl90]

/-- Witness for C9 on the empty store. -/
theorem build_status_not_found_witness :
    get_build_status ⟨[], [], [], 0⟩ 1 =
      { progress := ProgressResult.notFound, health_score := 90,
        health_status := str "excellent" } :=
  build_status_not_found ⟨[], [], [], 0⟩ 1 rfl

/-- C4: on a project present in the store with an empty task list,
`track_build_progress` reports 0% completion (no division by zero occurs:
the guarded branch returns 0 and the velocity denominator is at least 1),
and whenever no task is completed the predicted completion is null. -/
theorem track_build_progress_spec (store : Store) (pid : Nat)
    (project : ProjectRec) (hp : getProject store pid = some project) :
    (store.tasks.filter (fun t => t.project_id == pid) = [] →
       ∃ r, track_build_progress store pid = .ok r
         ∧ r.total_tasks = 0 ∧ r.completion_percentage = 0 ∧ r.velocity = 0
         ∧ r.predicted_completion_weeks = none)
    ∧ (∀ r, track_build_progress store pid = .ok r → r.completed_tasks = 0 →
        r.predicted_completion_weeks = none) := by
  constructor
  · intro hempty
    unfold track_build_progress
    rw [hp]
    simp only [hempty]
    refine ⟨_, rfl, ?_, ?_, ?_, ?_⟩
    · simp
    · simp [roundTo_zero]
    · simp [roundTo_zero]
    · simp
  · intro r hr h0
    unfold track_build_progress at hr
    rw [hp] at hr
    simp only [ProgressResult.ok.injEq] at hr
    subst hr
    simp only [] at h0 ⊢
    simp [h0]

/-- The add/flush loop either produces rows for every subtask (with their
flushed ids) or raises. -/
theorem persistSubtasks_cases (pid : Nat) (oracle : Nat → Bool) :
    ∀ (ts : List SubtaskTemplate) (nid idx : Nat),
      (∃ rows ids, persistSubtasks pid oracle ts nid idx = .ok (rows, ids)
        ∧ rows.length = ts.length ∧ ids.length = ts.length
        ∧ rows.map TaskRec.title = ts.map SubtaskTemplate.title
        ∧ rows.map TaskRec.id = ids)
      ∨ (∃ e, persistSubtasks pid oracle ts nid idx = .error e) := by
  intro ts
  induction ts with
  | nil =>
    intro nid idx
    left
    exact ⟨[], [], rfl, rfl, rfl, rfl, rfl⟩
  | cons t ts ih =>
    intro nid idx
    by_cases ho : oracle idx = true
    · right
      exact ⟨(), by simp [persistSubtasks, ho]⟩
    · rcases ih (nid + 1) (idx + 1) with ⟨rows, ids, heq, h1, h2, h3, h4⟩ | ⟨e, heq⟩
      · left
        refine ⟨mkTaskRec pid nid t :: rows, nid :: ids, ?_, by simp [h1],
          by simp [h2], by simp [h3, mkTaskRec], by simp [h4, mkTaskRec]⟩
        simp [persistSubtasks, ho, heq]
      · right
        exact ⟨e, by simp [persistSubtasks, ho, heq]⟩

/-- C5: `create_feature_tasks` is atomic — either every subtask produced by
the decomposer is appended to the store and all their new ids are returned,
or the committed store is returned unchanged (zero new subtasks). -/
theorem create_feature_tasks_atomic (store : Store) (oracle : Nat → Bool)
    (pid : Nat) (n d : Str) :
    (∃ rows ids,
        create_feature_tasks store oracle pid n d =
          .ok ({ store with tasks := store.tasks ++ rows,
                            next_id := store.next_id + rows.length }, ids)
        ∧ rows.length = (decompose_task n d).length
        ∧ ids.length = (decompose_task n d).length
        ∧ rows.map TaskRec.title = (decompose_task n d).map SubtaskTemplate.title
        ∧ rows.map TaskRec.id = ids)
    ∨ create_feature_tasks store oracle pid n d = .error store := by
  rcases persistSubtasks_cases pid oracle (decompose_task n d) store.next_id 0 with
    ⟨rows, ids, heq, h1, h2, h3, h4⟩ | ⟨e, heq⟩
  · left
    exact ⟨rows, ids, by simp [create_feature_tasks, heq], h1, h2, h3, h4⟩
  · right
    simp [create_feature_tasks, heq]

/-- Witness for C4 on a store holding one project with no tasks. -/
theorem track_build_progress_spec_witness :
    ∃ r, track_build_progress ⟨[⟨1, str "P", none⟩], [], [], 0⟩ 1 = .ok r
      ∧ r.total_tasks = 0 ∧ r.completion_percentage = 0 ∧ r.velocity = 0
      ∧ r.predicted_completion_weeks = none :=
  (track_build_progress_spec ⟨[⟨1, str "P", none⟩], [], [], 0⟩ 1 ⟨1, str "P", none⟩
    (by decide)).1 (by decide)

/-- The skill-identification loop appends at most one tag per table entry. -/
theorem requiredSkillsOf_length_le (content : Str) :
    (requiredSkillsOf content).length ≤ SKILL_KEYWORDS.length := by
  have aux : ∀ (ks : List (Str × List Str)) (acc : List Str),
      (ks.foldl (fun acc sk =>
        if sk.2.any (fun k => containsSub k content) then acc ++ [sk.1] else acc)
        acc).length ≤ acc.length + ks.length := by
    intro ks
    induction ks with
    | nil => intro acc; simp
    | cons k ks ih =>
      intro acc
      simp only [List.foldl_cons]
      by_cases h : (k.2.any (fun kw => containsSub kw content)) = true
      · simp only [h, if_true]
        have hih := ih (acc ++ [k.1])
        simp at hih ⊢
        omega
      · simp only [h, Bool.false_eq_true, if_false]
        have hih := ih acc
        simp at hih ⊢
        omega
  unfold requiredSkillsOf
  have h := aux SKILL_KEYWORDS []
  simp only [List.length_nil, Nat.zero_add] at h
  exact h

/-- Every element accumulated by the user-scoring loop is either from the
initial accumulator or the suggestion of a user with positive raw score. -/
theorem suggestStep_fold_mem (store : Store) (pidOpt : Option Nat) (rs : List Str) :
    ∀ (users : List UserRec) (acc : List Suggestion) (x : Suggestion),
      x ∈ users.foldl (suggestStep store pidOpt rs) acc →
      x ∈ acc ∨ ∃ u : UserRec, 0 < userScore store pidOpt rs u
        ∧ x = mkSuggestion rs (userScore store pidOpt rs u) u := by
  intro users
  induction users with
  | nil =>
    intro acc x hx
    left
    simpa using hx
  | cons u us ih =>
    intro acc x hx
    simp only [List.foldl_cons] at hx
    rcases ih _ x hx with hacc | hex
    · unfold suggestStep at hacc
      by_cases h : userScore store pidOpt rs u > 0
      · rw [if_pos h] at hacc
        rcases List.mem_append.mp hacc with h1 | h2
        · left; exact h1
        · right; exact ⟨u, h, by simpa using h2⟩
      · rw [if_neg h] at hacc
        left; exact hacc
    · right; exact hex

/-- The department bonus is 0 or 0.4. -/
theorem deptBonus_cases (store : Store) (pidOpt : Option Nat) (u : UserRec) :
    deptBonus store pidOpt u = 0 ∨ deptBonus store pidOpt u = 2/5 := by
  unfold deptBonus
  cases pidOpt with
  | none => left; rfl
  | some pid =>
    cases hg : getProject store pid with
    | none => left; simp [hg]
    | some p =>
      simp only [hg]
      split_ifs
      · right; rfl
      · left; rfl

/-- A positive raw user score lies in [3/70, 1]. -/
theorem userScore_mem_Icc (store : Store) (pidOpt : Option Nat) (rs : List Str)
    (hrs : rs.length ≤ 7) (u : UserRec)
    (hpos : 0 < userScore store pidOpt rs u) :
    3/70 ≤ userScore store pidOpt rs u ∧ userScore store pidOpt rs u ≤ 1 := by
  have hlen : ((rs.length : ℚ)) ≤ 7 := by exact_mod_cast hrs
  have hsk : ((SKILL_KEYWORDS.length : ℕ) : ℚ) = 7 := by
    norm_num [show SKILL_KEYWORDS.length = 7 from rfl]
  unfold userScore at hpos ⊢
  rw [hsk] at hpos ⊢
  rcases deptBonus_cases store pidOpt u with hd | hd <;> rw [hd] at hpos ⊢ <;>
    by_cases ha : u.role = UserRole.admin <;>
    by_cases hrne : rs = [] <;>
    simp only [ha, hrne, ne_eq, not_true_eq_false, not_false_eq_true, if_true,
      if_false, ite_true, ite_false, List.length_nil, Nat.cast_zero] at hpos ⊢
  · constructor <;> norm_num
  · have h1 : (1 : ℚ) ≤ rs.length := by
      have hl := List.length_pos.mpr hrne
      exact_mod_cast hl
    constructor <;> nlinarith
  · norm_num at hpos
  · have h1 : (1 : ℚ) ≤ rs.length := by
      have hl := List.length_pos.mpr hrne
      exact_mod_cast hl
    constructor <;> nlinarith
  · constructor <;> norm_num
  · have h1 : (1 : ℚ) ≤ rs.length := by
      have hl := List.length_pos.mpr hrne
      exact_mod_cast hl
    constructor <;> nlinarith
  · constructor <;> norm_num
  · have h1 : (1 : ℚ) ≤ rs.length := by
      have hl := List.length_pos.mpr hrne
      exact_mod_cast hl
    constructor <;> nlinarith

/-- Rounding to two decimals preserves the upper bound 1. -/
theorem roundTo_two_le_one {x : ℚ} (h : x ≤ 1) : roundTo 2 x ≤ 1 := by
  unfold roundTo
  have hpow : ((10 : ℚ)) ^ (2 : ℕ) = 100 := by norm_num
  rw [hpow]
  have h100 : x * 100 ≤ 100 := by linarith
  have hfl : ⌊x * 100⌋ ≤ 100 := by
    have hstep : ⌊x * 100⌋ ≤ ⌊(100 : ℚ)⌋ := Int.floor_le_floor h100
    have h100f : ⌊(100 : ℚ)⌋ = 100 := by norm_num
    omega
  rw [div_le_one (by norm_num : (0 : ℚ) < 100)]
  by_cases heq : ⌊x * 100⌋ = 100
  · have hge : (100 : ℚ) ≤ x * 100 := by
      have hfle := Int.floor_le (x * 100)
      rw [heq] at hfle
      exact_mod_cast hfle
    have hxe : x * 100 = 100 := le_antisymm h100 hge
    rw [hxe]
    have hhe : halfEven ((100 : ℤ) : ℚ) = 100 := halfEven_intCast 100
    push_cast at hhe
    rw [hhe]
    norm_num
  · have hle := (halfEven_bounds (x * 100)).2
    have hfin : halfEven (x * 100) ≤ 100 := by omega
    exact_mod_cast hfin

/-- Rounding to two decimals keeps a value at least 3/70 positive. -/
theorem roundTo_two_pos {x : ℚ} (h : 3/70 ≤ x) : 0 < roundTo 2 x := by
  unfold roundTo
  have hpow : ((10 : ℚ)) ^ (2 : ℕ) = 100 := by norm_num
  rw [hpow]
  apply div_pos _ (by norm_num : (0 : ℚ) < 100)
  have h4 : (4 : ℤ) ≤ ⌊x * 100⌋ := by
    apply Int.le_floor.mpr
    push_cast
    nlinarith
  have hlb := (halfEven_bounds (x * 100)).1
  have hfin : (0 : ℤ) < halfEven (x * 100) := by omega
  exact_mod_cast hfin

/-- C7: `suggest_assignee` returns at most five suggestions, sorted in
non-increasing score order, every returned (rounded) score lies in (0, 1],
and each suggestion carries at most two matched skill tags. -/
theorem suggest_assignee_spec (store : Store) (t d : Str) (pidOpt : Option Nat) :
    (suggest_assignee store t d pidOpt).suggestions.Pairwise
        (fun a b => b.score ≤ a.score)
    ∧ (suggest_assignee store t d pidOpt).suggestions.length ≤ 5
    ∧ ∀ s ∈ (suggest_assignee store t d pidOpt).suggestions,
        0 < s.score ∧ s.score ≤ 1 ∧ s.matched_skills.length ≤ 2 := by
  have hs : (suggest_assignee store t d pidOpt).suggestions =
      (((store.users.filter (fun u => u.is_active)).foldl
          (suggestStep store pidOpt (requiredSkillsOf (contentOf t d))) []).mergeSort
        (fun a b => decide (b.score ≤ a.score))).take 5 := rfl
  refine ⟨?_, ?_, ?_⟩
  · rw [hs]
    have hp : (((store.users.filter (fun u => u.is_active)).foldl
        (suggestStep store pidOpt (requiredSkillsOf (contentOf t d))) []).mergeSort
        (fun a b => decide (b.score ≤ a.score))).Pairwise
        (fun a b => decide (b.score ≤ a.score) = true) := by
      apply List.sorted_mergeSort
      · intro a b c h1 h2
        simp only [decide_eq_true_eq] at h1 h2 ⊢
        exact le_trans h2 h1
      · intro a b
        simp only [Bool.or_eq_true, decide_eq_true_eq]
        exact le_total b.score a.score
    have hp5 := hp.sublist (List.take_sublist 5 _)
    exact hp5.imp (fun hab => by simpa using hab)
  · rw [hs]
    simp only [List.length_take]
    exact min_le_left 5 _
  · intro s hsmem
    rw [hs] at hsmem
    have hmem1 := List.mem_of_mem_take hsmem
    have hmem2 := List.mem_mergeSort.mp hmem1
    rcases suggestStep_fold_mem store pidOpt (requiredSkillsOf (contentOf t d)) _ []
        s hmem2 with habs | ⟨u, hpos, hx⟩
    · simp at habs
    · have hb := userScore_mem_Icc store pidOpt (requiredSkillsOf (contentOf t d))
        (le_trans (requiredSkillsOf_length_le _) (by norm_num
          [show SKILL_KEYWORDS.length = 7 from rfl])) u hpos
      subst hx
      refine ⟨?_, ?_, ?_⟩
      · exact roundTo_two_pos hb.1
      · exact roundTo_two_le_one hb.2
      · simp only [mkSuggestion, List.length_take]
        exact min_le_left 2 _

/-- Witness for C7 on a store with one active admin user and a skill-matched
title. -/
theorem suggest_assignee_spec_witness :
    0 < suggW.score ∧ suggW.score ≤ 1 ∧ suggW.matched_skills.length ≤ 2 :=
  (suggest_assignee_spec storeW (str "api") (str "") none).2.2 suggW (by
    have hreq : requiredSkillsOf (contentOf (str "api") (str "")) = [str "backend"] := by
      decide
    have hscore : userScore storeW none [str "backend"]
        ⟨1, str "alice", str "Alice", str "A", .admin, str "", true⟩ = 12/35 := by
      norm_num [userScore, deptBonus, show SKILL_KEYWORDS.length = 7 from rfl]
    have hround : roundTo 2 (12/35 : ℚ) = 17/50 := by
      norm_num [roundTo, halfEven]
    have hstep : suggestStep storeW none [str "backend"] []
        ⟨1, str "alice", str "Alice", str "A", .admin, str "", true⟩ = [suggW] := by
      unfold suggestStep
      rw [hscore, if_pos (by norm_num : (12 : ℚ)/35 > 0)]
      simp only [mkSuggestion, hround, List.nil_append]
      rfl
    have hfil : storeW.users.filter (fun u => u.is_active) =
        [⟨1, str "alice", str "Alice", str "A", .admin, str "", true⟩] := rfl
    have hbase : (storeW.users.filter (fun u => u.is_active)).foldl
        (suggestStep storeW none (requiredSkillsOf (contentOf (str "api") (str "")))) []
        = [suggW] := by
      rw [hreq, hfil, List.foldl_cons, hstep, List.foldl_nil]
    have hs : (suggest_assignee storeW (str "api") (str "") none).suggestions =
        (((storeW.users.filter (fun u => u.is_active)).foldl
          (suggestStep storeW none (requiredSkillsOf (contentOf (str "api") (str "")))) []).mergeSort
          (fun a b => decide (b.score ≤ a.score))).take 5 := rfl
    rw [hs, hbase, List.mergeSort_singleton]
    exact List.mem_singleton_self _)
